import Mathlib

/-!
Shallow embedding of the disease-target pipeline's core logic
(`chembl_data.py` and `disease_pipeline/chembl_data_disease.py`):
identifier resolution, mechanism enrichment with activity fallback,
target-name resolution, approval classification, keyword extraction and
the two-level aggregator.  External HTTP lookups are modelled as pure
response data (a status code plus a parsed body) supplied through an
environment; Python exceptions are modelled as `Option`/`none`.
-/

namespace DiseasePipeline

/-- Python truthiness for an optional string: `None` and `""` are falsy. -/
def truthy : Option String → Option String
  | some s => if s = "" then none else some s
  | none => none

/-- Python `x or d` for an optional string `x` and default `d`. -/
def pyOr (o : Option String) (d : String) : String := (truthy o).getD d

/-- Helper for `pySplit`: accumulates the current token (reversed) while
scanning the character list, mirroring Python `str.split()` with no
arguments (split on whitespace runs, dropping empty tokens). -/
def wsTokens (acc : List Char) : List Char → List (List Char)
  | [] => if acc.isEmpty then [] else [acc.reverse]
  | c :: cs =>
    if c.isWhitespace then
      if acc.isEmpty then wsTokens [] cs
      else acc.reverse :: wsTokens [] cs
    else wsTokens (c :: acc) cs

/-- Python `s.split()`: whitespace-delimited tokens of `s`, empties dropped. -/
def pySplit (s : String) : List String :=
  (wsTokens [] s.data).map (fun cs => String.mk cs)

/-- Python `s.lower()`, modelled characterwise so it reduces in the kernel. -/
def pyLower (s : String) : String := String.mk (s.data.map Char.toLower)

/-- Python `s.strip()`: drop leading and trailing whitespace. -/
def pyStrip (s : String) : String :=
  String.mk (((s.data.dropWhile Char.isWhitespace).reverse.dropWhile
    Char.isWhitespace).reverse)

/-- Bool test that the first list is an initial segment of the second. -/
def startsWithChars : List Char → List Char → Bool
  | [], _ => true
  | _ :: _, [] => false
  | a :: as, b :: bs => (a == b) && startsWithChars as bs

/-- Python `needle in hay` on strings, modelled on character lists:
`needle` occurs contiguously inside `hay`. -/
def substrOfChars (needle : List Char) : List Char → Bool
  | [] => needle.isEmpty
  | c :: cs => startsWithChars needle (c :: cs) || substrOfChars needle cs

/-- The fixed, ordered keyword vocabulary of `extract_moa_keyword`. -/
def moaKeywords : List String :=
  ["inhibitor", "agonist", "antagonist", "modulator", "blocker", "activator"]

/-- `extract_moa_keyword(moa)` from `chembl_data.py`.  Scans the keyword
vocabulary in order for a substring of `moa.lower()`; otherwise returns the
last whitespace-delimited token of a non-empty `moa`, or the sentinel for an
empty one.  `moa.split()[-1]` raises `IndexError` when the token list is
empty; that exception is modelled as `none`. -/
def extract_moa_keyword (moa : String) : Option String :=
  match moaKeywords.find? (fun kw => substrOfChars kw.data (pyLower moa).data) with
  | some kw => some kw
  | none => if moa = "" then some "NA" else (pySplit moa).getLast?

/-- Bool-valued keep test of the aggregator comprehension: `v and v != "NA"`. -/
def keepVal (v : String) : Bool := (v != "") && (v != "NA")

/-- `format_multi_drug_output(blocks)` from `chembl_data.py`:
`" | ".join([", ".join([v for v in vals if v and v != "NA"]) if vals else "NA"
for vals in blocks])`. -/
def format_multi_drug_output (blocks : List (List String)) : String :=
  String.intercalate " | " (blocks.map (fun vals =>
    if !vals.isEmpty then String.intercalate ", " (vals.filter keepVal)
    else "NA"))

/-- The Aggregator exactly as the spec sentence for C7 words it: the sentinel
is rendered for every entity whose list is empty AFTER dropping empty and
sentinel values (spec-side definition, for comparison with the source). -/
def aggregateSpecC7 (blocks : List (List String)) : String :=
  String.intercalate " | " (blocks.map (fun vals =>
    let kept := vals.filter keepVal
    if kept.isEmpty then "NA" else String.intercalate ", " kept))

/-- The Aggregator as amended for C7: the sentinel is rendered exactly for
entities whose ORIGINAL list is empty; a non-empty list whose values are all
dropped renders as the empty string (spec-side definition). -/
def aggregateAmendedC7 (blocks : List (List String)) : String :=
  String.intercalate " | " (blocks.map (fun vals =>
    if vals.isEmpty then "NA" else String.intercalate ", " (vals.filter keepVal)))

/-- One synonym record of a molecule, with the two synonym field variants
queried by `get_chembl_id_exact` (`molecule_synonyms__synonym` and
`molecule_synonyms__molecule_synonym`). -/
structure MoleculeSynonym where
  synonym : String
  molecule_synonym : String
deriving DecidableEq

/-- A molecule record of the knowledge base, as used by the resolver. -/
structure Molecule where
  molecule_chembl_id : String
  pref_name : String
  molecule_synonyms : List MoleculeSynonym
deriving DecidableEq

/-- The six query parameter sets of `get_chembl_id_exact`, in the order the
source tries them. -/
inductive MatchTier
  | prefNameExact
  | synonymExact
  | moleculeSynonymExact
  | prefNamePartial
  | synonymPartial
  | moleculeSynonymPartial
deriving DecidableEq

/-- The fixed order in which `get_chembl_id_exact` issues its six queries:
the three exact tiers, then the three partial tiers. -/
def tierOrder : List MatchTier :=
  [.prefNameExact, .synonymExact, .moleculeSynonymExact,
   .prefNamePartial, .synonymPartial, .moleculeSynonymPartial]

/-- Response of one molecule-search query: HTTP status plus the parsed
"molecules" list. -/
structure MoleculeResp where
  status : Nat
  molecules : List Molecule

/-- The tier loop of `get_chembl_id_exact`: issue each query in order; on a
200 response with a non-empty molecule list, return the first molecule's id
as a singleton; otherwise continue; return `[]` after the last tier. -/
def resolveTiers (fetch : MatchTier → MoleculeResp) : List MatchTier → List String
  | [] => []
  | t :: rest =>
    let r := fetch t
    if r.status = 200 then
      match r.molecules with
      | [] => resolveTiers fetch rest
      | m :: _ => [m.molecule_chembl_id]
    else resolveTiers fetch rest

/-- `get_chembl_id_exact(drug_name)` from `chembl_data.py`, with the six
molecule-search queries for the given name supplied as `fetch`. -/
def get_chembl_id_exact (fetch : MatchTier → MoleculeResp) : List String :=
  resolveTiers fetch tierOrder

/-- The Identifier Resolver as the spec words it (spec-side definition):
the first tier, in the fixed order, whose query yields at least one hit
contributes its first hit as a singleton result; if every tier yields zero
hits the result is empty. -/
def resolveSpec (fetch : MatchTier → MoleculeResp) : List String :=
  match tierOrder.findSome? (fun t =>
      let r := fetch t
      if r.status = 200 then r.molecules.head?.map Molecule.molecule_chembl_id
      else none) with
  | some cid => [cid]
  | none => []

/-- Case-insensitive string equality, as the `__iexact` query operator. -/
def iexact (a b : String) : Bool := pyLower a == pyLower b

/-- Case-insensitive substring test, as the `__icontains` query operator. -/
def icontains (hay needle : String) : Bool :=
  substrOfChars (pyLower needle).data (pyLower hay).data

/-- Which molecules each of the six query parameter sets matches. -/
def tierFilter (name : String) : MatchTier → Molecule → Bool
  | .prefNameExact, m => iexact m.pref_name name
  | .synonymExact, m => m.molecule_synonyms.any (fun s => iexact s.synonym name)
  | .moleculeSynonymExact, m =>
      m.molecule_synonyms.any (fun s => iexact s.molecule_synonym name)
  | .prefNamePartial, m => icontains m.pref_name name
  | .synonymPartial, m =>
      m.molecule_synonyms.any (fun s => icontains s.synonym name)
  | .moleculeSynonymPartial, m =>
      m.molecule_synonyms.any (fun s => icontains s.molecule_synonym name)

/-- Knowledge-base semantics of the molecule search: every query succeeds and
returns, in source order, the molecules matching its parameter set. -/
def queryKB (kb : List Molecule) (name : String) (t : MatchTier) : MoleculeResp :=
  { status := 200, molecules := kb.filter (tierFilter name t) }

/-- One record of the mechanism endpoint's "mechanisms" list. -/
structure MechanismRec where
  mechanism_of_action : Option String
  target_chembl_id : Option String
deriving DecidableEq

/-- One record of the activity endpoint's "activities" list. -/
structure Activity where
  target_chembl_id : Option String
deriving DecidableEq

/-- One entry of a target component's "target_component_synonyms" list. -/
structure TargetComponentSynonym where
  syn_type : Option String
  component_synonym : Option String
deriving DecidableEq

/-- One entry of a target detail's "target_components" list. -/
structure TargetComponent where
  target_component_synonyms : List TargetComponentSynonym
deriving DecidableEq

/-- Response of the target-detail endpoint: status plus parsed body. -/
structure TargetResp where
  status : Nat
  target_components : List TargetComponent
  pref_name : Option String
deriving DecidableEq

/-- Response of the mechanism endpoint. -/
structure MechResp where
  status : Nat
  mechanisms : List MechanismRec
deriving DecidableEq

/-- Response of the activity endpoint. -/
structure ActivityResp where
  status : Nat
  activities : List Activity
deriving DecidableEq

/-- Response of the molecule-detail endpoint (for `fetch_molecule_type`). -/
structure MoleculeTypeResp where
  status : Nat
  molecule_type : Option String
deriving DecidableEq

/-- One record of the drug-indication endpoint as read by the
`chembl_data.py` variant of `fetch_approval_status`. -/
structure DrugIndicationMain where
  efo_term : Option String
  mesh_heading : Option String
  max_phase_for_ind : Option ℚ
deriving DecidableEq

/-- Response of the drug-indication endpoint. -/
structure IndicationResp where
  status : Nat
  drug_indications : List DrugIndicationMain
deriving DecidableEq

/-- The external knowledge base as a fixed assignment of responses to every
lookup the pipeline performs (the fixture data). -/
structure Env where
  molecule : String → MatchTier → MoleculeResp
  moleculeDetail : String → MoleculeTypeResp
  mechanism : String → MechResp
  activity : String → ActivityResp
  targetDetail : String → TargetResp
  indication : String → IndicationResp

/-- The inner test of `fetch_target_name`'s synonym scan: a synonym tagged
`GENE_SYMBOL` contributes its `component_synonym` value (default "NA"). -/
def geneSynPick (syn : TargetComponentSynonym) : Option String :=
  if syn.syn_type = some "GENE_SYMBOL" then some (syn.component_synonym.getD "NA")
  else none

/-- The nested component/synonym scan of `fetch_target_name`: first
`GENE_SYMBOL`-tagged synonym value in scan order. -/
def findGeneSymbol : List TargetComponent → Option String
  | [] => none
  | comp :: rest =>
    match comp.target_component_synonyms.findSome? geneSynPick with
    | some v => some v
    | none => findGeneSymbol rest

/-- All component synonyms of a target detail, in the scan order of
`fetch_target_name`. -/
def targetSyns (r : TargetResp) : List TargetComponentSynonym :=
  (r.target_components.map (fun c => c.target_component_synonyms)).flatten

/-- `fetch_target_name(target_chembl_id)` from `chembl_data.py`: on a 200
response, the first `GENE_SYMBOL` component synonym, else the preferred name
(default "NA"); on any other status, "NA" (logged, no exception). -/
def fetch_target_name (env : Env) (tid : String) : String :=
  let r := env.targetDetail tid
  if r.status = 200 then
    match findGeneSymbol r.target_components with
    | some v => v
    | none => r.pref_name.getD "NA"
  else "NA"

/-- One primary-path tuple of `fetch_moa_targets_for_ids`:
`(chembl_id, mechanism_of_action or "NA", target name or "NA")`. -/
def mechRecordOf (env : Env) (cid : String) (mech : MechanismRec) :
    String × String × String :=
  let moa := pyOr mech.mechanism_of_action "NA"
  let tgt_name :=
    match truthy mech.target_chembl_id with
    | some tid => fetch_target_name env tid
    | none => "NA"
  (cid, moa, tgt_name)

/-- The activity-endpoint fallback of `fetch_moa_targets_for_ids`: on a 200
response with at least one activity, a single tuple built from the first
activity's target id with mechanism text "NA"; otherwise nothing. -/
def moaFallback (env : Env) (cid : String) : List (String × String × String) :=
  let a := env.activity cid
  if a.status = 200 then
    match a.activities with
    | [] => []
    | act :: _ =>
      let tgt_name :=
        match truthy act.target_chembl_id with
        | some tid => fetch_target_name env tid
        | none => "NA"
      [(cid, "NA", tgt_name)]
  else []

/-- The per-identifier body of `fetch_moa_targets_for_ids`: the primary
mechanism records when the query succeeds with at least one record, and the
activity fallback whenever no mechanism record was collected (empty success
or non-200 status, the latter logged). -/
def moaForId (env : Env) (cid : String) : List (String × String × String) :=
  let r := env.mechanism cid
  if r.status = 200 then
    if r.mechanisms.isEmpty then moaFallback env cid
    else r.mechanisms.map (mechRecordOf env cid)
  else moaFallback env cid

/-- `fetch_moa_targets_for_ids(chembl_ids)` from `chembl_data.py`. -/
def fetch_moa_targets_for_ids (env : Env) (cids : List String) :
    List (String × String × String) :=
  (cids.map (moaForId env)).flatten

/-- `fetch_molecule_type(chembl_id)` from `chembl_data.py`. -/
def fetch_molecule_type (env : Env) (cid : String) : String :=
  let r := env.moleculeDetail cid
  if r.status = 200 then r.molecule_type.getD "NA" else "NA"

/-- The per-indication match test of the `chembl_data.py` variant of
`fetch_approval_status`: the stripped, lowercased disease name equals or is
a substring of the stripped, lowercased `efo_term` or `mesh_heading`
(guarded by truthiness of the raw disease name). -/
def indMatchMain (dn : String) (ind : DrugIndicationMain) : Bool :=
  let efo := pyLower (pyStrip (ind.efo_term.getD ""))
  let mesh := pyLower (pyStrip (ind.mesh_heading.getD ""))
  let d := pyLower (pyStrip dn)
  (dn != "") &&
    ((d == efo) || (d == mesh) ||
      substrOfChars d.data efo.data || substrOfChars d.data mesh.data)

/-- `fetch_approval_status(chembl_id, disease_name)` from `chembl_data.py`:
the first matching indication decides Approved (phase 4) versus
Not Approved; "NA" when nothing matches or the fetch fails. -/
def fetch_approval_status_main (env : Env) (cid : String) (dn : String) : String :=
  let r := env.indication cid
  if r.status = 200 then
    match r.drug_indications.find? (indMatchMain dn) with
    | some ind =>
      if ind.max_phase_for_ind.getD 0 = 4 then "Approved" else "Not Approved"
    | none => "NA"
  else "NA"

/-- One free-text reference of a drug-indication record (disease variant). -/
structure IndicationRef where
  ref_text : Option String
deriving DecidableEq

/-- One record of the drug-indication endpoint as read by the
`disease_pipeline` variant of `fetch_approval_status`. -/
structure DrugIndication where
  efo_term : Option String
  mesh_heading : Option String
  indication_refs : List IndicationRef
  max_phase_for_ind : Option ℚ
deriving DecidableEq

/-- Lowercased whitespace-token set of a string (Python
`set(word.lower() for word in s.split())`), as a duplicate-free list. -/
def tokenSet (s : String) : List String :=
  ((pySplit s).map pyLower).dedup

/-- The candidate indication texts of one record, in the order the disease
variant collects them: truthy `efo_term`, truthy `mesh_heading`, then the
truthy `ref_text` of each indication reference. -/
def indTexts (ind : DrugIndication) : List String :=
  (match truthy ind.efo_term with | some s => [s] | none => []) ++
  (match truthy ind.mesh_heading with | some s => [s] | none => []) ++
  ind.indication_refs.filterMap (fun r => truthy r.ref_text)

/-- The token-overlap match test of the disease variant: the intersection of
the disease token set with the candidate text's token set has size at least
half the disease token count, under real (rational) division. -/
def matchesDisease (dTokens : List String) (text : String) : Bool :=
  let ind_terms := tokenSet text
  let common := dTokens.filter (fun w => ind_terms.contains w)
  decide (Rat.divInt (dTokens.length : Int) 2 ≤ (common.length : ℚ))

/-- `fetch_approval_status(chembl_id, disease_name)` from
`disease_pipeline/chembl_data_disease.py`, with the indication response
supplied as status plus record list: "NA" on a failed fetch, "Not Approved"
when no indications exist, else the first record one of whose candidate
texts matches decides Approved (phase 4) versus Not Approved, and
"Not Approved" when no record matches. -/
def fetch_approval_status_disease (status : Nat) (inds : List DrugIndication)
    (disease_name : String) : String :=
  if status ≠ 200 then "NA"
  else if inds.isEmpty then "Not Approved"
  else
    let dTokens := tokenSet disease_name
    match inds.find? (fun ind => (indTexts ind).any (matchesDisease dTokens)) with
    | some ind =>
      if ind.max_phase_for_ind.getD 0 = 4 then "Approved" else "Not Approved"
    | none => "Not Approved"

/-- `get_moa_with_target_fallback(moa_targets)`, translated from the
commented-out reference implementation kept at the bottom of
`chembl_data.py` (the live call site at line 186 refers to it by name):
joined mechanism texts when any survive filtering, else "TARGET: keyword"
blocks from `extract_moa_keyword("")`, else "NA". -/
def get_moa_with_target_fallback (mts : List (String × String × String)) :
    Option String :=
  let moa_list := (mts.map (fun mt => mt.2.1)).filter keepVal
  let target_list := (mts.map (fun mt => mt.2.2)).filter keepVal
  if !moa_list.isEmpty then some (String.intercalate "; " moa_list)
  else if !target_list.isEmpty then
    (extract_moa_keyword "").map (fun kw =>
      String.intercalate "; " (target_list.map (fun t => t ++ ": " ++ kw)))
  else some "NA"

/-- The `moa_short` column of `fetch_and_write_chembl_summary_csv`:
"TARGET: keyword" for every tuple with a kept target, joined with "; ",
"NA" when none; `none` models a keyword-extraction `IndexError`. -/
def moa_short_of (mts : List (String × String × String)) : Option String := do
  let blocks ← (mts.filter (fun mt => keepVal mt.2.2)).mapM
    (fun mt => (extract_moa_keyword mt.2.1).map (fun kw => mt.2.2 ++ ": " ++ kw))
  pure (if !blocks.isEmpty then String.intercalate "; " blocks else "NA")

/-- One output row of `fetch_and_write_chembl_summary_csv`. -/
structure SummaryRow where
  input_drug : String
  chembl_ids : String
  mechanism_of_action : String
  target_name : String
  modality : String
  approval_status : String
  moa_short : String
deriving DecidableEq

/-- The per-drug row computation of `fetch_and_write_chembl_summary_csv`
(resolve, enrich, classify, render the row's string fields); `none` models a
Python exception aborting the run. -/
def summaryRow (env : Env) (disease_name : Option String) (drug_name : String) :
    Option SummaryRow := do
  let chembl_ids := get_chembl_id_exact (env.molecule drug_name)
  let moa_targets := fetch_moa_targets_for_ids env chembl_ids
  let moa_str ← get_moa_with_target_fallback moa_targets
  let target_list := (moa_targets.map (fun mt => mt.2.2)).filter keepVal
  let target_str :=
    if !target_list.isEmpty then String.intercalate "; " target_list else "NA"
  let moltype_str :=
    if !chembl_ids.isEmpty then
      String.intercalate "; "
        ((chembl_ids.filter (fun c => c != "")).map (fetch_molecule_type env))
    else "NA"
  let approval_status :=
    match chembl_ids, truthy disease_name with
    | cid :: _, some dn => fetch_approval_status_main env cid dn
    | _, _ => "NA"
  let moa_short ← moa_short_of moa_targets
  pure {
    input_drug := drug_name
    chembl_ids :=
      if !chembl_ids.isEmpty then String.intercalate ", " chembl_ids else "NA"
    mechanism_of_action := moa_str
    target_name := target_str
    modality := moltype_str
    approval_status := approval_status
    moa_short := moa_short }

/-- The whole-batch row list of `fetch_and_write_chembl_summary_csv`. -/
def summaryRows (env : Env) (drug_names : List String)
    (disease_name : Option String) : Option (List SummaryRow) :=
  drug_names.mapM (summaryRow env disease_name)

/-- A fixture environment on which every lookup fails with status 404. -/
def emptyEnv : Env where
  molecule := fun _ _ => ⟨404, []⟩
  moleculeDetail := fun _ => ⟨404, none⟩
  mechanism := fun _ => ⟨404, []⟩
  activity := fun _ => ⟨404, []⟩
  targetDetail := fun _ => ⟨404, [], none⟩
  indication := fun _ => ⟨404, []⟩

/-- Fixture: the mechanism query fails with status 500 while the activity
endpoint has one record for target T1 (whose detail lookup fails). -/
def envMechError : Env :=
  { emptyEnv with
    mechanism := fun _ => ⟨500, []⟩
    activity := fun _ => ⟨200, [⟨some "T1"⟩]⟩ }

/-- Fixture: the mechanism query succeeds with zero records, the activity
endpoint has one record for target T9, and T9's detail carries a
`GENE_SYMBOL` synonym KRAS. -/
def envMechEmpty : Env :=
  { emptyEnv with
    mechanism := fun _ => ⟨200, []⟩
    activity := fun _ => ⟨200, [⟨some "T9"⟩]⟩
    targetDetail := fun _ =>
      ⟨200, [⟨[⟨some "GENE_SYMBOL", some "KRAS"⟩]⟩], some "GTPase KRas"⟩ }

/-- Fixture: one primary mechanism record for target T3, whose detail has a
`GENE_SYMBOL` synonym EGFR in its second component. -/
def envGene : Env :=
  { emptyEnv with
    mechanism := fun _ => ⟨200, [⟨some "EGFR inhibitor", some "T3"⟩]⟩
    targetDetail := fun _ =>
      ⟨200, [⟨[⟨some "UNIPROT", some "P00533"⟩]⟩,
             ⟨[⟨some "GENE_SYMBOL", some "EGFR"⟩]⟩], some "Epidermal growth factor receptor"⟩ }

/-- `find?` returns the head of the first satisfying suffix: if nothing in
`pre` satisfies `p` and `a` does, the search over `pre ++ a :: post` yields
`a`. -/
theorem find?_append_first {α : Type} (p : α → Bool) (pre post : List α) (a : α)
    (hpre : ∀ x ∈ pre, p x = false) (ha : p a = true) :
    (pre ++ a :: post).find? p = some a := by
  induction pre with
  | nil => simp [List.find?_cons_of_pos, ha]
  | cons y ys ih =>
    have hy : p y = false := hpre y (by simp)
    rw [List.cons_append, List.find?_cons_of_neg _ (by simp [hy])]
    exact ih (fun x hx => hpre x (by simp [hx]))

/-- A whitespace-only character list tokenizes to no tokens. -/
theorem wsTokens_nil_of_all_ws :
    ∀ l : List Char, (∀ c ∈ l, c.isWhitespace = true) → wsTokens [] l = [] := by
  intro l h
  induction l with
  | nil => rfl
  | cons c cs ih =>
    have hc : c.isWhitespace = true := h c (by simp)
    simp only [wsTokens, hc, if_true, List.isEmpty_nil]
    exact ih (fun x hx => h x (by simp [hx]))

/-- The tier loop agrees with the spec-side first-hit-tier description. -/
theorem resolveTiers_eq_findSome (fetch : MatchTier → MoleculeResp) :
    ∀ ts : List MatchTier,
      resolveTiers fetch ts =
        match ts.findSome? (fun t =>
            let r := fetch t
            if r.status = 200 then
              r.molecules.head?.map Molecule.molecule_chembl_id
            else none) with
        | some cid => [cid]
        | none => [] := by
  intro ts
  induction ts with
  | nil => rfl
  | cons t rest ih =>
    rw [List.findSome?_cons]
    by_cases hst : (fetch t).status = 200
    · cases hmol : (fetch t).molecules with
      | nil => simp [resolveTiers, hst, hmol, ih]
      | cons m ms => simp [resolveTiers, hst, hmol]
    · simp [resolveTiers, hst, ih]

/-- Claim C1: the Identifier Resolver tries the six match tiers in the fixed
order (exact preferred name, exact on each synonym field, partial preferred
name, partial on each synonym field), stops at the first tier whose query
returns at least one hit and returns exactly that tier's first hit as a
singleton (so the result is empty or a singleton); in particular, over a
knowledge base where the name misses the exact-preferred-name tier, hits the
exact-synonym tier with first hit `m`, and also hits the
partial-preferred-name tier, the resolver returns `[m.molecule_chembl_id]`. -/
theorem get_chembl_id_exact_spec :
    (∀ fetch : MatchTier → MoleculeResp,
        get_chembl_id_exact fetch = resolveSpec fetch ∧
        (get_chembl_id_exact fetch = [] ∨
          ∃ cid, get_chembl_id_exact fetch = [cid])) ∧
    (∀ (kb : List Molecule) (name : String) (m : Molecule) (ms : List Molecule),
        kb.filter (tierFilter name .prefNameExact) = [] →
        kb.filter (tierFilter name .synonymExact) = m :: ms →
        kb.filter (tierFilter name .prefNamePartial) ≠ [] →
        get_chembl_id_exact (queryKB kb name) = [m.molecule_chembl_id]) := by
  constructor
  · intro fetch
    have h := resolveTiers_eq_findSome fetch tierOrder
    constructor
    · exact h
    · rw [get_chembl_id_exact, h]
      cases tierOrder.findSome? _ with
      | none => exact Or.inl rfl
      | some cid => exact Or.inr ⟨cid, rfl⟩
  · intro kb name m ms h1 h2 _
    simp [get_chembl_id_exact, tierOrder, resolveTiers, queryKB, h1, h2]

/-- Claim C1 witness: a concrete two-molecule knowledge base in which the
name "asp" is an exact synonym of M2 and a partial preferred-name match of
M1; the resolver returns M2, the exact-synonym tier's first hit. -/
theorem get_chembl_id_exact_spec_witness :
    get_chembl_id_exact (queryKB
      [⟨"CHEMBL1", "aspirin", []⟩, ⟨"CHEMBL2", "other", [⟨"asp", "x"⟩]⟩]
      "asp") = ["CHEMBL2"] :=
  get_chembl_id_exact_spec.2
    [⟨"CHEMBL1", "aspirin", []⟩, ⟨"CHEMBL2", "other", [⟨"asp", "x"⟩]⟩]
    "asp" ⟨"CHEMBL2", "other", [⟨"asp", "x"⟩]⟩ []
    (by decide) (by decide) (by decide)

/-- Claim C5, counterexample: the text consisting of a single space is
non-empty and contains no vocabulary keyword, yet `extract_moa_keyword` does
not return its last whitespace-delimited token (there is none): the
`moa.split()[-1]` fallback raises `IndexError`, modelled as `none`. -/
theorem extract_moa_keyword_whitespace_counterexample :
    " " ≠ "" ∧
    (∀ kw ∈ moaKeywords, substrOfChars kw.data (pyLower " ").data = false) ∧
    extract_moa_keyword " " = none := by
  refine ⟨by decide, by decide, by decide⟩

/-- Claim C5 (amended): `extract_moa_keyword` returns the first vocabulary
term (in vocabulary-list order) occurring case-insensitively as a substring
of the text; if none occurs and the text has at least one whitespace-delimited
token it returns the last such token; if the text is empty it returns the
sentinel.  (For a non-empty text that is all whitespace the fallback raises
instead of returning a token.) -/
theorem extract_moa_keyword_spec (moa : String) :
    (∀ pre kw post, moaKeywords = pre ++ kw :: post →
        (∀ k ∈ pre, substrOfChars k.data (pyLower moa).data = false) →
        substrOfChars kw.data (pyLower moa).data = true →
        extract_moa_keyword moa = some kw) ∧
    ((∀ k ∈ moaKeywords, substrOfChars k.data (pyLower moa).data = false) →
        pySplit moa ≠ [] →
        ∃ t, (pySplit moa).getLast? = some t ∧ extract_moa_keyword moa = some t) ∧
    (moa = "" → extract_moa_keyword moa = some "NA") := by
  refine ⟨?_, ?_, ?_⟩
  · intro pre kw post horder hpre hkw
    have hfind : moaKeywords.find?
        (fun k => substrOfChars k.data (pyLower moa).data) = some kw := by
      rw [horder]
      exact find?_append_first _ pre post kw hpre hkw
    simp [extract_moa_keyword, hfind]
  · intro hnone hsplit
    have hfind : moaKeywords.find?
        (fun k => substrOfChars k.data (pyLower moa).data) = none := by
      rw [List.find?_eq_none]
      intro k hk
      simp [hnone k hk]
    have hne : moa ≠ "" := by
      intro h
      exact hsplit (by rw [h]; rfl)
    obtain ⟨t, ht⟩ := Option.isSome_iff_exists.mp
      ((List.getLast?_isSome).mpr hsplit)
    exact ⟨t, ht, by simp [extract_moa_keyword, hfind, hne, ht]⟩
  · intro h
    subst h
    rfl

/-- Claim C5 witness: a text containing both "blocker" and "inhibitor"
resolves to "inhibitor", the first vocabulary term in list order. -/
theorem extract_moa_keyword_spec_witness :
    extract_moa_keyword "Potassium channel blocker and inhibitor" =
      some "inhibitor" :=
  (extract_moa_keyword_spec "Potassium channel blocker and inhibitor").1
    [] "inhibitor" ["agonist", "antagonist", "modulator", "blocker", "activator"]
    rfl (by decide) (by decide)

/-- Claim C10: on a non-empty, whitespace-only mechanism text containing no
vocabulary keyword, `extract_moa_keyword` raises (`moa.split()[-1]` indexes an
empty token list), modelled as `none`; the last-token fallback yields a value
only when the text has a non-whitespace character. -/
theorem extract_moa_keyword_whitespace_raises (moa : String)
    (hne : moa ≠ "")
    (hws : ∀ c ∈ moa.data, c.isWhitespace = true)
    (hkw : ∀ k ∈ moaKeywords, substrOfChars k.data (pyLower moa).data = false) :
    extract_moa_keyword moa = none := by
  have hfind : moaKeywords.find?
      (fun k => substrOfChars k.data (pyLower moa).data) = none := by
    rw [List.find?_eq_none]
    intro k hk
    simp [hkw k hk]
  have htok : wsTokens [] moa.data = [] := wsTokens_nil_of_all_ws moa.data hws
  simp [extract_moa_keyword, hfind, hne, pySplit, htok]

/-- Claim C10 witness: the single-space text. -/
theorem extract_moa_keyword_whitespace_raises_witness :
    extract_moa_keyword " " = none :=
  extract_moa_keyword_whitespace_raises " " (by decide) (by decide) (by decide)

/-- Claim C6, counterexample: an entirely empty outer list renders as the
empty string, not as the sentinel "NA" the claim states. -/
theorem format_multi_drug_output_empty_counterexample :
    format_multi_drug_output [] ≠ "NA" := by decide

/-- Claim C6 (amended): the first and third stated equations hold, but an
entirely empty outer list renders as the empty string, not the sentinel. -/
theorem format_multi_drug_output_examples :
    format_multi_drug_output [["A", "B"], ["C"]] = "A, B | C" ∧
    format_multi_drug_output [] = "" ∧
    format_multi_drug_output [[], ["X"]] = "NA | X" := by
  refine ⟨by decide, by decide, by decide⟩

/-- Claim C7, counterexample: `["NA"]`, a non-empty list whose only value is
dropped as a sentinel, is rendered as the empty string, not as "NA" in its
position as the claim states (the claimed reading would give "NA | X"). -/
theorem format_multi_drug_output_sentinel_counterexample :
    format_multi_drug_output [["NA"], ["X"]] = " | X" ∧
    aggregateSpecC7 [["NA"], ["X"]] = "NA | X" := by
  refine ⟨by decide, by decide⟩

/-- Claim C7 (amended): the Aggregator drops empty and sentinel values within
each entity's list, joins survivors with ", ", joins entities with " | ", and
renders the sentinel exactly for entities whose ORIGINAL list is empty; a
non-empty list whose values were all dropped renders as the empty string. -/
theorem format_multi_drug_output_eq_amended (blocks : List (List String)) :
    format_multi_drug_output blocks = aggregateAmendedC7 blocks := by
  unfold format_multi_drug_output aggregateAmendedC7
  congr 1
  apply List.map_congr_left
  intro vals _
  cases vals <;> simp

/-- Claim C2, counterexample: two indication records both match the disease,
the first at phase 2 and the second at phase 4; the classifier returns
"Not Approved" because the first matching record decides, even though a
matching record with phase 4 exists (the claim requires "Approved"). -/
theorem fetch_approval_status_disease_counterexample :
    fetch_approval_status_disease 200
      [⟨some "flu", none, [], some 2⟩, ⟨some "flu", none, [], some 4⟩] "flu" =
      "Not Approved" ∧
    (indTexts ⟨some "flu", none, [], some 4⟩).any
      (matchesDisease (tokenSet "flu")) = true ∧
    (⟨some "flu", none, [], some 4⟩ : DrugIndication).max_phase_for_ind.getD 0
      = 4 := by
  refine ⟨by decide, by decide, by decide⟩

/-- Claim C2 (amended): a candidate text matches iff the intersection of the
lowercase word sets has size at least `ceil(|disease_tokens| / 2)` (the
real-division test of the code is equivalent to the ceiling form for integer
set sizes); and with indication records present the result is decided by the
FIRST record in source order one of whose candidate texts matches: Approved
if that record's approval-phase field (default 0) equals 4, else NotApproved
— not by whether any matching record has phase 4. -/
theorem fetch_approval_status_disease_spec :
    (∀ (dTokens : List String) (text : String),
        matchesDisease dTokens text = true ↔
          (dTokens.length + 1) / 2 ≤
            (dTokens.filter (fun w => (tokenSet text).contains w)).length) ∧
    (∀ (pre post : List DrugIndication) (ind : DrugIndication) (dname : String),
        (∀ i ∈ pre,
            (indTexts i).any (matchesDisease (tokenSet dname)) = false) →
        (indTexts ind).any (matchesDisease (tokenSet dname)) = true →
        fetch_approval_status_disease 200 (pre ++ ind :: post) dname =
          if ind.max_phase_for_ind.getD 0 = 4 then "Approved"
          else "Not Approved") := by
  constructor
  · intro dTokens text
    simp only [matchesDisease, decide_eq_true_eq]
    rw [Rat.divInt_eq_div]
    push_cast
    rw [div_le_iff₀ (by norm_num : (0 : ℚ) < 2)]
    have hcast :
        ((dTokens.filter (fun w => (tokenSet text).contains w)).length : ℚ) * 2 =
          (((dTokens.filter (fun w => (tokenSet text).contains w)).length * 2
            : ℕ) : ℚ) := by
      push_cast
      ring
    rw [hcast, Nat.cast_le]
    omega
  · intro pre post ind dname hpre hind
    have hfind := find?_append_first
      (fun i => (indTexts i).any (matchesDisease (tokenSet dname)))
      pre post ind hpre hind
    have hne : (pre ++ ind :: post).isEmpty = false := by simp
    simp [fetch_approval_status_disease, hne, hfind]

/-- Claim C2 witness: disease "type 2 diabetes mellitus" against the single
indication term "type 2 diabetes" at phase 4 classifies as Approved. -/
theorem fetch_approval_status_disease_spec_witness :
    fetch_approval_status_disease 200
      [⟨some "type 2 diabetes", none, [], some 4⟩]
      "type 2 diabetes mellitus" = "Approved" := by
  have h := fetch_approval_status_disease_spec.2 [] []
    ⟨some "type 2 diabetes", none, [], some 4⟩
    "type 2 diabetes mellitus" (by simp) (by decide)
  simpa using h

/-- Claim C3, counterexample: the primary mechanism query fails with a
non-success status (500), yet the activity fallback fires and the enricher
emits a record for the identifier instead of degrading the step to zero
records without a fallback. -/
theorem moa_fallback_on_error_counterexample :
    (envMechError.mechanism "D1").status ≠ 200 ∧
    moaForId envMechError "D1" = [("D1", "NA", "NA")] := by
  refine ⟨by decide, by decide⟩

/-- Claim C3 (amended): the activity fallback fires whenever the primary
mechanism step contributed zero records — both when the primary query
succeeds with a true empty result AND when it returns a non-success status
(which is logged and degrades the step to zero records, processing
continuing); it never fires when the primary query succeeds with at least
one record, in which case the result does not depend on the activity
source at all. -/
theorem moa_fallback_spec :
    (∀ (env : Env) (cid : String),
        (env.mechanism cid).status = 200 →
        (env.mechanism cid).mechanisms = [] →
        moaForId env cid = moaFallback env cid) ∧
    (∀ (env : Env) (cid : String),
        (env.mechanism cid).status ≠ 200 →
        moaForId env cid = moaFallback env cid) ∧
    (∀ (env env2 : Env) (cid : String),
        (env.mechanism cid).status = 200 →
        (env.mechanism cid).mechanisms ≠ [] →
        env2.mechanism = env.mechanism →
        env2.targetDetail = env.targetDetail →
        moaForId env2 cid = moaForId env cid) := by
  refine ⟨?_, ?_, ?_⟩
  · intro env cid hst hmech
    simp [moaForId, hst, hmech]
  · intro env cid hst
    simp [moaForId, hst]
  · intro env env2 cid hst hne hm htd
    have hft : ∀ tid, fetch_target_name env2 tid = fetch_target_name env tid := by
      intro tid
      unfold fetch_target_name
      rw [htd]
    have hmr : ∀ m, mechRecordOf env2 cid m = mechRecordOf env cid m := by
      intro m
      unfold mechRecordOf
      cases truthy m.target_chembl_id <;> simp [hft]
    unfold moaForId
    rw [hm]
    have hInd : (env.mechanism cid).mechanisms.isEmpty = false :=
      List.isEmpty_eq_false.mpr hne
    simp only [hst, if_true, hInd, Bool.false_eq_true, if_false]
    exact List.map_congr_left (fun m _ => hmr m)

/-- Claim C3 witness: on the error fixture, the per-identifier result equals
the activity fallback's result. -/
theorem moa_fallback_spec_witness :
    moaForId envMechError "D1" = moaFallback envMechError "D1" :=
  moa_fallback_spec.2.1 envMechError "D1" (by decide)

/-- Claim C4: an identifier whose primary mechanism query succeeds with zero
records and whose activity fallback returns at least one record, the first
carrying target identifier `tid`, yields exactly one tuple
`(cid, "NA", fetch_target_name env tid)` — the "NA" mechanism sentinel and
the Target Name Resolver applied to `tid` — and nothing else. -/
theorem moa_fallback_single_record (env : Env) (cid tid : String)
    (act : Activity) (rest : List Activity)
    (h200 : (env.mechanism cid).status = 200)
    (hempty : (env.mechanism cid).mechanisms = [])
    (ha200 : (env.activity cid).status = 200)
    (hacts : (env.activity cid).activities = act :: rest)
    (htid : truthy act.target_chembl_id = some tid) :
    moaForId env cid = [(cid, "NA", fetch_target_name env tid)] := by
  unfold moaForId moaFallback
  simp [h200, hempty, ha200, hacts, htid]

/-- Claim C4 witness: empty primary result plus one activity record for T9
yields exactly the record ("D1", "NA", "KRAS"). -/
theorem moa_fallback_single_record_witness :
    moaForId envMechEmpty "D1" = [("D1", "NA", "KRAS")] := by
  have h := moa_fallback_single_record envMechEmpty "D1" "T9" ⟨some "T9"⟩ []
    (by decide) (by decide) (by decide) (by decide) (by decide)
  rw [h]
  decide

/-- `findGeneSymbol` scans the flattened component-synonym list in order. -/
theorem findGeneSymbol_eq_findSome (comps : List TargetComponent) :
    findGeneSymbol comps =
      ((comps.map (fun c => c.target_component_synonyms)).flatten).findSome?
        geneSynPick := by
  induction comps with
  | nil => rfl
  | cons c rest ih =>
    simp only [findGeneSymbol, List.map_cons, List.flatten_cons,
      List.findSome?_append]
    cases h : c.target_component_synonyms.findSome? geneSynPick with
    | none => simp [h, ih, Option.or]
    | some v => simp [h, Option.or]

/-- Claim C8: the Target Name Resolver returns the value of the first
`GENE_SYMBOL`-tagged component synonym in scan order over the target's
components and their synonym lists; the preferred name (default "NA") when
no such synonym exists; and the sentinel "NA" without raising when the
detail fetch has a non-success status — so enrichment still emits a
mechanism record with a sentinel display name instead of halting. -/
theorem fetch_target_name_spec :
    (∀ (env : Env) (tid : String),
        (env.targetDetail tid).status ≠ 200 →
        fetch_target_name env tid = "NA") ∧
    (∀ (env : Env) (tid v : String),
        (env.targetDetail tid).status = 200 →
        (targetSyns (env.targetDetail tid)).findSome? geneSynPick = some v →
        fetch_target_name env tid = v) ∧
    (∀ (env : Env) (tid : String),
        (env.targetDetail tid).status = 200 →
        (targetSyns (env.targetDetail tid)).findSome? geneSynPick = none →
        fetch_target_name env tid =
          (env.targetDetail tid).pref_name.getD "NA") ∧
    (∀ (env : Env) (cid tid : String) (m : MechanismRec),
        (env.mechanism cid).status = 200 →
        (env.mechanism cid).mechanisms = [m] →
        truthy m.target_chembl_id = some tid →
        (env.targetDetail tid).status ≠ 200 →
        moaForId env cid = [(cid, pyOr m.mechanism_of_action "NA", "NA")]) := by
  refine ⟨?_, ?_, ?_, ?_⟩
  · intro env tid hst
    simp [fetch_target_name, hst]
  · intro env tid v hst hfind
    rw [targetSyns] at hfind
    have h := findGeneSymbol_eq_findSome (env.targetDetail tid).target_components
    rw [hfind] at h
    simp [fetch_target_name, hst, h]
  · intro env tid hst hfind
    have h := findGeneSymbol_eq_findSome (env.targetDetail tid).target_components
    rw [targetSyns] at hfind
    rw [hfind] at h
    simp [fetch_target_name, hst, h]
  · intro env cid tid m hst hmech htid hfail
    have hname : fetch_target_name env tid = "NA" := by
      simp [fetch_target_name, hfail]
    simp [moaForId, hst, hmech, mechRecordOf, htid, hname]

/-- Claim C8 witness: a target whose second component carries the
`GENE_SYMBOL` synonym EGFR resolves to "EGFR", and the enricher emits the
corresponding record. -/
theorem fetch_target_name_spec_witness :
    fetch_target_name envGene "T3" = "EGFR" :=
  fetch_target_name_spec.2.1 envGene "T3" "EGFR" (by decide) (by decide)

/-- Claim C9: the composed resolve-enrich-classify-aggregate row computation
is deterministic — its output is a function of the input entity list, the
disease name and the fixture data alone, so two runs on identical inputs and
identical external data produce identical rows. -/
theorem summaryRows_deterministic (env1 env2 : Env)
    (names1 names2 : List String) (d1 d2 : Option String)
    (henv : env1 = env2) (hn : names1 = names2) (hd : d1 = d2) :
    summaryRows env1 names1 d1 = summaryRows env2 names2 d2 := by
  subst henv
  subst hn
  subst hd
  rfl

/-- Claim C9 witness: two runs on the same concrete fixture agree. -/
theorem summaryRows_deterministic_witness :
    summaryRows emptyEnv ["aspirin"] (some "flu") =
      summaryRows emptyEnv ["aspirin"] (some "flu") :=
  summaryRows_deterministic emptyEnv emptyEnv ["aspirin"] ["aspirin"]
    (some "flu") (some "flu") rfl rfl rfl

end DiseasePipeline
